import Mathlib

/-
Verification of the `ethcontract-generate` builder wrapper
(src/generate/src/lib.rs).

The wrapper is embedded shallowly:
  * the filesystem is explicit state (`FS`, a map from paths to optional
    file contents), since `expand_contract` reads the artifact file and
    `write_to_file` writes the output file;
  * `proc_macro2::TokenStream` is external; every observation of it in
    this crate goes through its `Display` rendering (`write!(w, ..)`),
    so it is modelled by its rendered text;
  * a caller-supplied `Write` sink is modelled by the `Sink` interface:
    a state type together with a string-write operation that may fail,
    mirroring `io::Write`;
  * `anyhow::Result` is `Except GenError`.
-/

namespace EthcontractGenerate

/-- Error taxonomy of the pipeline, from the spec (section 7):
`ArtifactNotFound`, `ArtifactParseError`, `UnsupportedTypeError`,
`OverloadNameCollision`, `IoError`. -/
inductive GenError where
  | artifactNotFound : GenError
  | artifactParseError (path : String) (detail : String) : GenError
  | unsupportedTypeError (typeString : String) : GenError
  | overloadNameCollision (signature : String) : GenError
  | ioError : GenError
deriving DecidableEq, Repr

/-- Model of the filesystem: a map from paths to optional file contents. -/
def FS : Type := String → Option String

/-- Setting the contents of one file, leaving every other path unchanged. -/
def FS.write (fs : FS) (path contents : String) : FS :=
  fun p => if p = path then some contents else fs p

/-- Model of `proc_macro2::TokenStream`: the crate only ever observes a
token stream through its deterministic `Display` rendering, so the model
carries the rendered text. -/
structure TokenStream where
  rendered : String
deriving DecidableEq, Repr

/-- Internal global arguments passed to the generators
(`Args` in lib.rs): the artifact path and the runtime crate name. -/
structure Args where
  artifact_path : String
  runtime_crate_name : String
deriving DecidableEq, Repr

/-- `Args::new`: stores the given artifact path and the default runtime
crate name `"ethcontract"`. -/
def Args.new (artifact_path : String) : Args :=
  { artifact_path := artifact_path, runtime_crate_name := "ethcontract" }

/-- `Builder` (lib.rs): holds the generation `Args`; no code is generated
until `generate` is called. -/
structure Builder where
  args : Args
deriving DecidableEq, Repr

/-- `Builder::new`: wraps `Args::new` for the given artifact path. -/
def Builder.new (artifact_path : String) : Builder :=
  { args := Args.new artifact_path }

/-- `Builder::with_runtime_crate_name`: replaces the runtime crate name
stored in the args, leaving the artifact path untouched. -/
def Builder.with_runtime_crate_name (b : Builder) (name : String) : Builder :=
  { b with args := { b.args with runtime_crate_name := name } }

/-- Modelled from the spec: the `contract` module (declared `mod contract;`
in lib.rs) holding stages 1-4 of the pipeline is not among the available
sources. Per the spec (sections 5 and 7) it is a single synchronous, pure
transformation: it loads the artifact at `args.artifact_path` (failing with
`ArtifactNotFound` when the file is absent and with `ArtifactParseError`
when malformed, here modelled as empty contents) and otherwise produces a
token stream that is a deterministic function of exactly the artifact
bytes and the configured runtime crate name, with no retries and no other
inputs. -/
def contract.expand_contract (fs : FS) (args : Args) : Except GenError TokenStream :=
  match fs args.artifact_path with
  | none => Except.error GenError.artifactNotFound
  | some bytes =>
      if bytes = "" then
        Except.error (GenError.artifactParseError args.artifact_path "empty artifact")
      else
        Except.ok { rendered := "use " ++ args.runtime_crate_name ++ ";" ++ bytes }

/-- `ContractBindings` (lib.rs): the token stream produced by a `Builder`. -/
structure ContractBindings where
  tokens : TokenStream
deriving DecidableEq, Repr

/-- `Builder::generate`: runs `contract::expand_contract` on the stored
args once; on success wraps the tokens in a `ContractBindings`, on failure
propagates the error via `?`. -/
def Builder.generate (fs : FS) (b : Builder) : Except GenError ContractBindings :=
  match contract.expand_contract fs b.args with
  | Except.ok tokens => Except.ok { tokens := tokens }
  | Except.error e => Except.error e

/-- A caller-supplied sink (the `W: Write` parameter of
`ContractBindings::write`): a state type with a string-write operation
returning the new state and a result that may be an io error. -/
structure Sink (σ : Type) where
  writeStr : σ → String → σ × Except GenError Unit

/-- `ContractBindings::write`: renders the token stream and writes it to
the sink (`write!(w, "..", self.tokens)?; Ok(())`). -/
def ContractBindings.write {σ : Type} (cb : ContractBindings) (W : Sink σ) (w : σ) :
    σ × Except GenError Unit :=
  match W.writeStr w cb.tokens.rendered with
  | (w2, Except.ok _) => (w2, Except.ok ())
  | (w2, Except.error e) => (w2, Except.error e)

/-- `File::create` on the model filesystem: creates the file when absent
and truncates it to empty contents when present. -/
def File.create (fs : FS) (path : String) : FS :=
  FS.write fs path ""

/-- An open file as a sink: writing appends to the contents stored at the
path and succeeds. -/
def fileSink (path : String) : Sink FS :=
  { writeStr := fun fs s =>
      (FS.write fs path (((fs path).getD "") ++ s), Except.ok ()) }

/-- `ContractBindings::write_to_file`: `File::create(path)?` then
`self.write(file)`. -/
def ContractBindings.write_to_file (cb : ContractBindings) (fs : FS) (path : String) :
    FS × Except GenError Unit :=
  cb.write (fileSink path) (File.create fs path)

/-- `ContractBindings::into_tokens`: returns the underlying token stream. -/
def ContractBindings.into_tokens (cb : ContractBindings) : TokenStream :=
  cb.tokens

/-- An in-memory sink used to observe what `write` emits; `failing` makes
every write fail with an io error, modelling a broken sink. -/
structure MemSink where
  contents : String
  failing : Bool
deriving DecidableEq, Repr

/-- The write operation of `MemSink`. -/
def memSink : Sink MemSink :=
  { writeStr := fun w s =>
      if w.failing then (w, Except.error GenError.ioError)
      else ({ w with contents := w.contents ++ s }, Except.ok ()) }

/-- The API usage pattern implied by lib.rs: `write_to_file` is a method
of `ContractBindings`, so writing an output file requires first obtaining
a `ContractBindings` from `Builder::generate`; on a generation error the
write is never reached. -/
def generateAndWriteToFile (fs : FS) (b : Builder) (out : String) :
    FS × Except GenError Unit :=
  match Builder.generate fs b with
  | Except.error e => (fs, Except.error e)
  | Except.ok cb => cb.write_to_file fs out

/-- C5: for every artifact path `p`, `Builder::new(p)` produces a builder
whose runtime crate name is the fixed default `"ethcontract"` and whose
artifact path equals `p`. -/
theorem builder_new_defaults (p : String) :
    (Builder.new p).args.runtime_crate_name = "ethcontract"
    ∧ (Builder.new p).args.artifact_path = p :=
  ⟨rfl, rfl⟩

/-- C4: `with_runtime_crate_name` sets the runtime crate name to exactly
the given string and leaves the artifact path unchanged, and
`Builder::generate` hands the stored args to the transformation exactly as
stored (its result is the expansion of those args, unmodified). -/
theorem config_threaded_unchanged (fs : FS) (b : Builder) (s : String) :
    (b.with_runtime_crate_name s).args.runtime_crate_name = s
    ∧ (b.with_runtime_crate_name s).args.artifact_path = b.args.artifact_path
    ∧ Builder.generate fs (b.with_runtime_crate_name s)
        = Except.map ContractBindings.mk
            (contract.expand_contract fs (b.with_runtime_crate_name s).args) := by
  refine ⟨rfl, rfl, ?_⟩
  cases h : contract.expand_contract fs (b.with_runtime_crate_name s).args <;>
    simp [Builder.generate, Except.map, h]

/-- C1: determinism of the pipeline. If two runs are configured with equal
`Args` and the artifact files at the configured path hold byte-identical
contents, the two calls to `Builder::generate` produce identical results;
in particular the rendered bytes of the token streams coincide. -/
theorem generate_deterministic (fs₁ fs₂ : FS) (a₁ a₂ : Args)
    (hargs : a₁ = a₂)
    (hbytes : fs₁ a₁.artifact_path = fs₂ a₂.artifact_path) :
    Except.map (fun cb => cb.tokens.rendered) (Builder.generate fs₁ (Builder.mk a₁))
      = Except.map (fun cb => cb.tokens.rendered) (Builder.generate fs₂ (Builder.mk a₂)) := by
  subst hargs
  unfold Builder.generate contract.expand_contract
  rw [hbytes]

/-- Witness for C1 at a concrete artifact: two distinct filesystems that
agree on the configured path yield the same rendered bytes. -/
theorem generate_deterministic_witness :
    Except.map (fun cb => cb.tokens.rendered)
        (Builder.generate (fun _ => some "ABI") (Builder.mk (Args.new "c.json")))
      = Except.map (fun cb => cb.tokens.rendered)
        (Builder.generate (fun p => if p = "c.json" then some "ABI" else none)
          (Builder.mk (Args.new "c.json"))) :=
  generate_deterministic _ _ _ _ rfl (by decide)

/-- C3: `Builder::generate` returns `Ok` with a `ContractBindings` exactly
when the expansion succeeds; on success the bindings wrap the expanded
tokens, and on failure the specific expansion error is returned unchanged
(no `ContractBindings` is constructed and the single expansion is never
retried: the result is always exactly the one run of
`contract::expand_contract` on the stored args). -/
theorem generate_no_partial_module (fs : FS) (b : Builder) :
    ((Builder.generate fs b).isOk = (contract.expand_contract fs b.args).isOk)
    ∧ (∀ t, contract.expand_contract fs b.args = Except.ok t →
        Builder.generate fs b = Except.ok (ContractBindings.mk t))
    ∧ (∀ e, contract.expand_contract fs b.args = Except.error e →
        Builder.generate fs b = Except.error e) := by
  cases h : contract.expand_contract fs b.args <;>
    simp [Builder.generate, Except.isOk, Except.toBool, h]

/-- Witness for C3: with no artifact file the expansion fails with
`ArtifactNotFound`, and `generate` returns exactly that error. -/
theorem generate_no_partial_module_witness :
    Builder.generate (fun _ => none) (Builder.new "a.json")
      = Except.error GenError.artifactNotFound :=
  (generate_no_partial_module (fun _ => none) (Builder.new "a.json")).2.2
    GenError.artifactNotFound rfl

/-- C9: builder construction is total and touches no filesystem state.
`Builder::new` and `with_runtime_crate_name` are pure functions of their
string arguments alone (the filesystem does not appear in their types),
so for a path naming no existing file they still succeed, and the missing
artifact error surfaces only from `Builder::generate`. -/
theorem builder_construction_no_filesystem (p s : String) (fs : FS)
    (hmissing : fs p = none) :
    Builder.new p = Builder.mk (Args.mk p "ethcontract")
    ∧ (Builder.new p).with_runtime_crate_name s = Builder.mk (Args.mk p s)
    ∧ Builder.generate fs (Builder.new p)
        = Except.error GenError.artifactNotFound := by
  refine ⟨rfl, rfl, ?_⟩
  unfold Builder.generate contract.expand_contract
  simp [Builder.new, Args.new, hmissing]

/-- Witness for C9 at a concrete missing path. -/
theorem builder_construction_no_filesystem_witness :
    Builder.new "missing.json" = Builder.mk (Args.mk "missing.json" "ethcontract")
    ∧ (Builder.new "missing.json").with_runtime_crate_name "myrt"
        = Builder.mk (Args.mk "missing.json" "myrt")
    ∧ Builder.generate (fun _ => none) (Builder.new "missing.json")
        = Except.error GenError.artifactNotFound :=
  builder_construction_no_filesystem "missing.json" "myrt" (fun _ => none) rfl

/-- C2: writing is all-or-nothing with respect to generation failure.
In the API of lib.rs the only route to an output file is
`ContractBindings::write_to_file`, a method on the value returned by a
successful `Builder::generate`; when generation fails with error `e`, the
combined run leaves the filesystem exactly as it was (no file created or
modified at any path) and surfaces `e`. -/
theorem no_output_on_generate_failure (fs : FS) (b : Builder) (out : String)
    (e : GenError) (hfail : Builder.generate fs b = Except.error e) :
    generateAndWriteToFile fs b out = (fs, Except.error e) := by
  simp [generateAndWriteToFile, hfail]

/-- Witness for C2: a concrete failing generation writes nothing. -/
theorem no_output_on_generate_failure_witness :
    generateAndWriteToFile (fun _ => none) (Builder.new "a.json") "out.rs"
      = ((fun _ => none : FS), Except.error GenError.artifactNotFound) :=
  no_output_on_generate_failure (fun _ => none) (Builder.new "a.json") "out.rs"
    GenError.artifactNotFound rfl

/-- C7: `ContractBindings::write` returns exactly the result of the write
to the caller-supplied sink: it returns `Ok(())` if and only if the sink
write of the rendered token stream succeeds, and any sink failure is
handed back unchanged, never swallowed. -/
theorem write_result_is_sink_result {σ : Type} (W : Sink σ) (cb : ContractBindings)
    (w : σ) :
    cb.write W w = W.writeStr w cb.tokens.rendered
    ∧ ((cb.write W w).2 = Except.ok ()
        ↔ (W.writeStr w cb.tokens.rendered).2 = Except.ok ()) := by
  rcases h : W.writeStr w cb.tokens.rendered with ⟨w2, e | u⟩ <;>
    simp [ContractBindings.write, h]

/-- C10: `write_to_file` overwrites rather than appends. For every prior
filesystem state it succeeds, and the resulting state is the prior state
with the target path holding exactly the newly rendered bindings (created
when absent, truncated when present), every other path untouched. -/
theorem write_to_file_overwrites (cb : ContractBindings) (fs : FS) (path : String) :
    (cb.write_to_file fs path).2 = Except.ok ()
    ∧ (cb.write_to_file fs path).1 = FS.write fs path cb.tokens.rendered := by
  refine ⟨rfl, ?_⟩
  funext q
  by_cases hq : q = path <;>
    simp [ContractBindings.write_to_file, ContractBindings.write, fileSink,
      File.create, FS.write, hq]

/-- C8: writing to a file and writing to a caller-supplied sink emit the
same content. Whenever `write_to_file` succeeds, the bytes stored at the
path are exactly the bytes `write` emits into a fresh working in-memory
sink for the same bindings. -/
theorem write_to_file_matches_write (cb : ContractBindings) (fs : FS) (path : String)
    (hok : (cb.write_to_file fs path).2 = Except.ok ()) :
    (cb.write_to_file fs path).1 path
      = some ((cb.write memSink (MemSink.mk "" false)).1.contents) := by
  simp [ContractBindings.write_to_file, ContractBindings.write, fileSink, memSink,
    File.create, FS.write]

/-- Witness for C8 at a concrete binding, filesystem and path. -/
theorem write_to_file_matches_write_witness :
    ((ContractBindings.mk (TokenStream.mk "code")).write_to_file
        (fun _ => none) "out.rs").1 "out.rs"
      = some (((ContractBindings.mk (TokenStream.mk "code")).write memSink
          (MemSink.mk "" false)).1.contents) :=
  write_to_file_matches_write (ContractBindings.mk (TokenStream.mk "code"))
    (fun _ => none) "out.rs" rfl

/-- C6: a generated `ContractBindings` is immutable. If `generate`
succeeded with tokens `t`, then `into_tokens` returns exactly `t`, `write`
emits exactly the rendering of `t` into a sink, `write_to_file` stores
exactly the rendering of `t` at any path on any filesystem, and a repeated
write of the same bindings emits the identical text again. -/
theorem bindings_immutable (fs : FS) (b : Builder) (cb : ContractBindings)
    (t : TokenStream)
    (hexp : contract.expand_contract fs b.args = Except.ok t)
    (hgen : Builder.generate fs b = Except.ok cb) :
    cb.into_tokens = t
    ∧ (cb.write memSink (MemSink.mk "" false)).1.contents = t.rendered
    ∧ (∀ (fs2 : FS) (path : String),
        (cb.write_to_file fs2 path).1 path = some t.rendered)
    ∧ (cb.write memSink (cb.write memSink (MemSink.mk "" false)).1).1.contents
        = t.rendered ++ t.rendered := by
  simp [Builder.generate, hexp] at hgen
  subst hgen
  refine ⟨rfl, rfl, ?_, rfl⟩
  intro fs2 path
  simp [ContractBindings.write_to_file, ContractBindings.write, fileSink,
    File.create, FS.write]

/-- Witness for C6 at a concrete artifact. -/
theorem bindings_immutable_witness :
    (ContractBindings.mk (TokenStream.mk "use ethcontract;ABI")).into_tokens
        = TokenStream.mk "use ethcontract;ABI"
    ∧ ((ContractBindings.mk (TokenStream.mk "use ethcontract;ABI")).write memSink
        (MemSink.mk "" false)).1.contents = "use ethcontract;ABI"
    ∧ (∀ (fs2 : FS) (path : String),
        ((ContractBindings.mk (TokenStream.mk "use ethcontract;ABI")).write_to_file
          fs2 path).1 path = some "use ethcontract;ABI")
    ∧ ((ContractBindings.mk (TokenStream.mk "use ethcontract;ABI")).write memSink
        ((ContractBindings.mk (TokenStream.mk "use ethcontract;ABI")).write memSink
          (MemSink.mk "" false)).1).1.contents
        = "use ethcontract;ABI" ++ "use ethcontract;ABI" :=
  bindings_immutable (fun _ => some "ABI") (Builder.new "c.json")
    (ContractBindings.mk (TokenStream.mk "use ethcontract;ABI"))
    (TokenStream.mk "use ethcontract;ABI") rfl rfl

end EthcontractGenerate
